import Mathlib

/-!
Verification of the ngonx/egosystem reverse-proxy gateway core.

The Go sources are shallowly embedded over `GoStr := List Char`.  The Go
standard-library string helpers used by the sources (`strings.Split`,
`strings.HasPrefix`, `strings.Contains`, `strings.Replace`) are implemented
below with the exact Go semantics at the call sites that use them; all
definitions are structurally recursive so that closed instances evaluate in
the kernel.
-/

/-- Strings from the Go sources are modelled as their character lists. -/
abbrev GoStr := List Char

/-- Go `strings.HasPrefix(s, pat)`: `pat` is a leading segment of `s`. -/
def goStartsWith : GoStr → GoStr → Bool
  | _, [] => true
  | [], _ :: _ => false
  | c :: cs, p :: ps => c == p && goStartsWith cs ps

/-- Go `strings.Contains(s, pat)`: some suffix of `s` starts with `pat`. -/
def goContains : GoStr → GoStr → Bool
  | [], pat => pat.isEmpty
  | c :: cs, pat => goStartsWith (c :: cs) pat || goContains cs pat

/-- Go `strings.Split(s, sep)` specialized to a one-character separator,
splitting around every occurrence of `c` (Go returns the pieces between
occurrences, including empty ones). -/
def splitChar (c : Char) : GoStr → List GoStr
  | [] => [[]]
  | x :: xs =>
    if x = c then [] :: splitChar c xs
    else
      match splitChar c xs with
      | [] => [[x]]
      | y :: ys => (x :: y) :: ys

/-- Go `strings.Split(s, ", ")` specialized to the two-character separator
used by `extractIpAddr`: Go splits around each leftmost non-overlapping
occurrence of the separator. -/
def splitCommaSpace : GoStr → List GoStr
  | [] => [[]]
  | [x] => [[x]]
  | x :: y :: rest =>
    if x = ',' ∧ y = ' ' then [] :: splitCommaSpace rest
    else
      match splitCommaSpace (y :: rest) with
      | [] => [[x]]
      | z :: zs => (x :: z) :: zs

/-- Go `strings.Replace(s, "[::1]", "localhost", -1)` specialized to the
pattern used by `extractIpAddr`: every leftmost non-overlapping occurrence of
the five characters `[::1]` is replaced by `localhost`. -/
def replaceLoopback : GoStr → GoStr
  | '[' :: ':' :: ':' :: '1' :: ']' :: rest => ("localhost".toList) ++ replaceLoopback rest
  | x :: xs => x :: replaceLoopback xs
  | [] => []

/-- The literal `[::1]` tested for by `extractIpAddr`. -/
def loopbackPat : GoStr := "[::1]".toList

/-!
Load-balancer model (src/cmd/cli/lb.go together with the parts of the
`handlers`, `domain` and `backoff` packages that lb.go calls; those packages
are not in the sources, so they are modelled from the spec where noted).
-/

/-- Embedding of `domain.Backend`: the parsed upstream URL (`none` when
`url.Parse` failed and the Go pointer is nil) and the liveness flag.  The
`ReverseProxy` handle is represented by the forwarding semantics of
`lbServe` below. -/
structure Backend where
  url : Option GoStr
  alive : Bool
deriving DecidableEq, Repr

/-- Modelled from the spec: the Server Pool owns the ordered backends and a
monotonically increasing selection cursor. -/
structure PoolState where
  backends : List Backend
  cursor : Nat
deriving DecidableEq, Repr

/-- Modelled from the spec: `ServerPool.MarkBackendStatus(addr, alive)` finds
the Backend matching the address and sets its liveness flag. -/
def markBackendStatus (st : PoolState) (u : Option GoStr) (alive : Bool) : PoolState :=
  { st with
    backends := st.backends.map (fun b => if b.url = u then { b with alive := alive } else b) }

/-- Scan helper for `nextPeer`: first alive backend of the rotated list,
returning its running position (the caller reduces it modulo the length). -/
def firstAliveFrom : List Backend → Nat → Option Nat
  | [], _ => none
  | b :: rest, pos => if b.alive then some pos else firstAliveFrom rest (pos + 1)

/-- Modelled from the spec: `ServerPool.nextPeer()` increments the cursor,
then scans forward from `cursor mod length` for up to `length` positions and
returns the index of the first Backend whose liveness flag is true (`none`
when no backend is alive).  The incremented-cursor state is returned in both
cases. -/
def nextPeer (st : PoolState) : Option Nat × PoolState :=
  let st' := { st with cursor := st.cursor + 1 }
  let n := st'.backends.length
  if n = 0 then (none, st')
  else
    let start := st'.cursor % n
    let rotated := st'.backends.drop start ++ st'.backends.take start
    ((firstAliveFrom rotated start).map (fun p => p % n), st')

/-- Decision taken by the ErrorHandler closure in `StartLB`: either sleep
`backoff.Default.Duration(retry)` (recorded by the retry count the duration
is computed from) and re-forward with the derived context `retry + 1`, or
mark the backend dead and re-enter `Lbalancer` with the derived context
`attempts + 1`. -/
inductive HandlerAction where
  | retrySame (backoffArg newRetry : Nat)
  | rerouteLB (newAttempts : Nat)
deriving DecidableEq, Repr

/-- Embedding of the ErrorHandler closure installed on each backend's reverse
proxy in `StartLB` (src/cmd/cli/lb.go): `retry` and `attempts` are the values
`GetRetryFromContext` / `GetAttemptsFromContext` read from the request
context (modelled from the spec: absence in the context means 0, so a fresh
request carries 0 for both).  Below three prior retries the pool is left
untouched and the same proxy is re-entered; otherwise the backend is marked
dead and the request re-enters the load balancer's entry point. -/
def lbErrorHandler (st : PoolState) (u : Option GoStr) (retry attempts : Nat) :
    PoolState × HandlerAction :=
  if retry < 3 then
    (st, HandlerAction.retrySame retry (retry + 1))
  else
    (markBackendStatus st u false, HandlerAction.rerouteLB (attempts + 1))

/-- Observable events of one request's trip through the load balancer.
`sleepBackoff r` records a sleep of `backoff.Default.Duration(r)`;
`reenterLB a` records the re-entry of the top-level entry point with the
attempt counter set to `a` in the derived context. -/
inductive LBEvent where
  | forwardReq (url : Option GoStr)
  | sleepBackoff (retryArg : Nat)
  | respondOK (url : Option GoStr)
  | markDead (url : Option GoStr)
  | reenterLB (newAttempts : Nat)
  | fail503
deriving DecidableEq, Repr

/-- URL of the backend at index `i` of the pool. -/
def backendUrlAt (st : PoolState) (i : Nat) : Option GoStr :=
  (st.backends.getD i ⟨none, false⟩).url

/-- Forwarding loop of one request through the backend at index `i`.  The
schedule lists the outcome of each successive forwarding attempt (`true` =
upstream success; an exhausted schedule means success).  A failed attempt
runs `lbErrorHandler`; `HandlerAction.retrySame` re-forwards through the same
index without touching the pool or selecting a peer, `HandlerAction.rerouteLB`
re-enters the entry point, which selects the next alive peer (the retry value
in the context is left as it was, exactly as the Go context derivation does). -/
def lbServe : PoolState → Nat → Nat → Nat → List Bool → List LBEvent × PoolState
  | st, i, _, _, [] =>
    ([LBEvent.forwardReq (backendUrlAt st i), LBEvent.respondOK (backendUrlAt st i)], st)
  | st, i, retry, attempts, ok :: rest =>
    if ok then ([LBEvent.forwardReq (backendUrlAt st i), LBEvent.respondOK (backendUrlAt st i)], st)
    else
      match lbErrorHandler st (backendUrlAt st i) retry attempts with
      | (st', HandlerAction.retrySame bArg newRetry) =>
        let next := lbServe st' i newRetry attempts rest
        (LBEvent.forwardReq (backendUrlAt st i) :: LBEvent.sleepBackoff bArg :: next.1, next.2)
      | (st', HandlerAction.rerouteLB newAttempts) =>
        match nextPeer st' with
        | (none, st'') =>
          ([LBEvent.forwardReq (backendUrlAt st i), LBEvent.markDead (backendUrlAt st i),
            LBEvent.reenterLB newAttempts, LBEvent.fail503], st'')
        | (some j, st'') =>
          let next := lbServe st'' j retry newAttempts rest
          (LBEvent.forwardReq (backendUrlAt st i) :: LBEvent.markDead (backendUrlAt st i) ::
            LBEvent.reenterLB newAttempts :: next.1, next.2)

/-- Modelled from the spec: `handlers.Lbalancer`, the Load-Balancing Router's
top-level entry point — select the next alive peer (service-unavailable
failure when none is alive) and forward through it. -/
def Lbalancer (st : PoolState) (retry attempts : Nat) (sched : List Bool) :
    List LBEvent × PoolState :=
  match nextPeer st with
  | (none, st') => ([LBEvent.fail503], st')
  | (some i, st') => lbServe st' i retry attempts sched

/-- Log lines produced while `StartLB` parses the backend list. -/
inductive StartupLog where
  | parseErrorLog (tok : GoStr)
  | configuredLog (tok : GoStr)
deriving DecidableEq, Repr

/-- Embedding of the server-parsing loop of `StartLB` (src/cmd/cli/lb.go):
the list is split on commas; for each token `url.Parse` (the external parser,
passed as an oracle returning `none` on error) is consulted — a parse error
is logged, and the loop then unconditionally appends a Backend built from the
parse result (nil on error) with liveness true and logs it as configured
(`ServerPool.AddBackend` is modelled from the spec: it appends). -/
def startLBParseServers (parse : GoStr → Option GoStr) (serverList : GoStr) :
    List Backend × List StartupLog :=
  (splitChar ',' serverList).foldl
    (fun acc tok =>
      match parse tok with
      | none =>
        (acc.1 ++ [⟨none, true⟩],
         acc.2 ++ [StartupLog.parseErrorLog tok, StartupLog.configuredLog tok])
      | some u =>
        (acc.1 ++ [⟨some u, true⟩], acc.2 ++ [StartupLog.configuredLog tok]))
    ([], [])

/-!
Gateway and authorization model (src/unnamed/part_001, package proxy).
-/

/-- The stable error identities of `pkg/errors` used by the proxy package. -/
inductive ProxyError where
  | bearerTokenFormat
  | tokenExpValidation
  | tokenHMACValidation
  | invalidAPIKey
deriving DecidableEq, Repr

/-- Classification of the error returned by `jwt.Verify` as tested by the
two `errors.ErrorIs` calls in `checkJWTSecretKeyFromRequest`: nil, the
sentinel `jwt.ErrExpValidation`, the sentinel `jwt.ErrHMACVerification`, or
any other error (for example a token that cannot be decoded). -/
inductive JwtVerifyOutcome where
  | ok
  | errExpValidation
  | errHMACVerification
  | errOther
deriving DecidableEq, Repr

/-- The "Bearer " marker required at the start of the Authorization header. -/
def bearerTag : GoStr := "Bearer ".toList

/-- Embedding of `checkJWTSecretKeyFromRequest` (src/unnamed/part_001): the
Authorization header must start with `Bearer `, else the bearer-format error
is returned; otherwise the second space-separated field is verified (the
verification call is the `verify` argument) and only the two sentinel
outcomes are turned into errors — any other outcome, including a decoding
failure, falls through to nil. -/
def checkJWTSecretKeyFromRequest (verify : GoStr → JwtVerifyOutcome) (authorization : GoStr) :
    Option ProxyError :=
  if goStartsWith authorization bearerTag then
    match verify ((splitChar ' ' authorization).getD 1 []) with
    | JwtVerifyOutcome.errExpValidation => some ProxyError.tokenExpValidation
    | JwtVerifyOutcome.errHMACVerification => some ProxyError.tokenHMACValidation
    | _ => none
  else some ProxyError.bearerTokenFormat

/-- Payload data of a compact JWT as far as the check observes it: the secret
the signature was produced with and the `exp` claim. -/
structure JwtClaimsModel where
  sigKey : GoStr
  exp : Int
deriving DecidableEq, Repr

/-- Model of the external library call
`jwt.Verify(token, jwt.NewHS256(key), &pl, jwt.ValidatePayload(&pl.Payload,
jwt.ExpirationTimeValidator(now)))`: an undecodable serialization yields an
error that is neither sentinel; signature verification runs before payload
validation, so a token signed under a different key fails with
`ErrHMACVerification`; a correctly signed token whose `exp` claim lies before
`now` fails with `ErrExpValidation`; otherwise verification succeeds.  The
`decode` oracle maps a token string to the claims it serializes (`none` for a
malformed token). -/
def jwtVerifyModel (key : GoStr) (now : Int) (decode : GoStr → Option JwtClaimsModel)
    (tok : GoStr) : JwtVerifyOutcome :=
  match decode tok with
  | none => JwtVerifyOutcome.errOther
  | some claims =>
    if claims.sigKey ≠ key then JwtVerifyOutcome.errHMACVerification
    else if claims.exp < now then JwtVerifyOutcome.errExpValidation
    else JwtVerifyOutcome.ok

/-- Embedding of `checkAPIKEYSecretKeyFromRequest` (src/unnamed/part_001).
`apikeyFromStore` and `lookupErr` are the two results of the secret-store
collaborator call `ph.Service.GetKEY(engine, key)`; the header is the
request's `X-API-KEY` value.  The code logs `lookupErr` when present but
takes no other action on it: the outcome is decided solely by the equality
comparison. -/
def checkAPIKEYSecretKeyFromRequest (apikeyFromStore : GoStr) (lookupErr : Option Unit)
    (xApiKeyHeader : GoStr) : Option ProxyError :=
  if apikeyFromStore = xApiKeyHeader then none else some ProxyError.invalidAPIKey

/-- Response model: just the header map the claims observe. -/
structure HTTPResponse where
  headers : List (GoStr × GoStr)
deriving DecidableEq, Repr

/-- Go `resp.Header.Set(k, v)`: replaces any existing entries for the key. -/
def setHeader (resp : HTTPResponse) (k v : GoStr) : HTTPResponse :=
  ⟨(k, v) :: resp.headers.filter (fun p => p.1 != k)⟩

/-- Header lookup on the response model. -/
def getHeader (resp : HTTPResponse) (k : GoStr) : Option GoStr :=
  (resp.headers.find? (fun p => p.1 == k)).map (fun p => p.2)

/-- The constant header stamped by `modifyResponse`. -/
def xProxyName : GoStr := "X-Proxy".toList

/-- The constant value stamped by `modifyResponse`. -/
def ngonxValue : GoStr := "Ngonx".toList

/-- Embedding of `modifyResponse(err)` (src/unnamed/part_001): the returned
hook first sets the `X-Proxy: Ngonx` response header and then propagates
`err` (nil when the check passed).  The pair returns the mutated response and
the propagated error. -/
def modifyResponse (err : Option ProxyError) (resp : HTTPResponse) :
    HTTPResponse × Option ProxyError :=
  (setHeader resp xProxyName ngonxValue, err)

/-- One entry of `domain.ProxyEndpoint.Endpoints` as the gateway reads it. -/
structure GEndpoint where
  pathEndpoint : GoStr
  pathToProxy : GoStr
  pathProtected : Bool
deriving DecidableEq, Repr

/-- Mutable wiring state of `ProxyGateway`: one `ModifyResponse` slot per
reverse-proxy object created in the loop (object `i` is registered for
endpoint `i`; the package-global `proxy` variable ends up pointing at the
last created object).  `none` means the slot was never assigned; `some e`
means `modifyResponse(e)` is installed. -/
structure GatewayState where
  hooks : List (Option (Option ProxyError))
deriving DecidableEq, Repr

/-- Wiring state right after the `ProxyGateway` configuration loop: one
object per endpoint, no `ModifyResponse` assigned anywhere. -/
def proxyGatewayInit (es : List GEndpoint) : GatewayState :=
  ⟨es.map (fun _ => none)⟩

/-- The `securityType` strings the Director switch recognizes. -/
def jwtTag : GoStr := "jwt".toList

/-- The `apikey` arm of the Director switch. -/
def apikeyTag : GoStr := "apikey".toList

/-- Headers of an inbound gateway request as the checks read them. -/
structure GRequest where
  authorizationHeader : GoStr
  xApiKeyHeader : GoStr
deriving DecidableEq, Repr

/-- Outcome of the Director's `switch securityType` for one request: `some e`
when a check ran and `modifyResponse(e)` is assigned, `none` when the switch
matched no case and no assignment happens. -/
def gatewayCheckResult (securityType : GoStr) (verify : GoStr → JwtVerifyOutcome)
    (getKeyValue : GoStr) (getKeyErr : Option Unit) (req : GRequest) :
    Option (Option ProxyError) :=
  if securityType = jwtTag then
    some (checkJWTSecretKeyFromRequest verify req.authorizationHeader)
  else if securityType = apikeyTag then
    some (checkAPIKEYSecretKeyFromRequest getKeyValue getKeyErr req.xApiKeyHeader)
  else none

/-- Embedding of serving one request through the gateway wired by
`ProxyGateway` (src/unnamed/part_001): the request is routed to endpoint `i`,
so the Director installed on object `i` runs; if that endpoint is protected
the Director runs the configured check and assigns
`proxy.ModifyResponse = modifyResponse(err)` — through the package-global
`proxy` variable, i.e. on the LAST created object, index `es.length - 1`.
The response then flows back through object `i`'s own `ModifyResponse` slot:
unset means the response is forwarded untouched, installed means the hook
stamps the header and propagates the check's error (the proxy's ErrorHandler
then answers 500 with the error text, modelled by the returned error). -/
def serveGatewayRequest (es : List GEndpoint) (securityType : GoStr)
    (verify : GoStr → JwtVerifyOutcome) (getKeyValue : GoStr) (getKeyErr : Option Unit)
    (st : GatewayState) (i : Nat) (req : GRequest) (upstream : HTTPResponse) :
    (HTTPResponse × Option ProxyError) × GatewayState :=
  let ep := es.getD i ⟨[], [], false⟩
  let st' :=
    if ep.pathProtected then
      match gatewayCheckResult securityType verify getKeyValue getKeyErr req with
      | some errResult => ⟨st.hooks.set (es.length - 1) (some errResult)⟩
      | none => st
    else st
  match st'.hooks.getD i none with
  | none => ((upstream, none), st')
  | some e => (modifyResponse e upstream, st')

/-!
Client IP extraction (src/unnamed/part_001, `extractIpAddr`).
-/

/-- Embedding of `extractIpAddr`: prefer the `X-Forwarded-For` header when
non-empty, taking its first `", "`-separated entry when there is more than
one; then, if the value contains `[::1]`, replace that notation by
`localhost`; finally keep everything before the first `:`. -/
def extractIpAddr (remoteAddr fwdAddress : GoStr) : GoStr :=
  let ipAddress := remoteAddr
  let ipAddress :=
    if fwdAddress ≠ [] then
      let ips := splitCommaSpace fwdAddress
      if 1 < ips.length then ips.getD 0 [] else fwdAddress
    else ipAddress
  if goContains ipAddress loopbackPat then
    (splitChar ':' (replaceLoopback ipAddress)).getD 0 []
  else
    (splitChar ':' ipAddress).getD 0 []

/-!
Concrete fixtures used by the scenario theorems and witnesses.
-/

/-- Backend A of the two-backend scenarios. -/
def urlA : GoStr := "http://a".toList

/-- Backend B of the two-backend scenarios. -/
def urlB : GoStr := "http://b".toList

/-- Two alive backends; the cursor is positioned so the next selection picks
backend A. -/
def poolAB : PoolState := ⟨[⟨some urlA, true⟩, ⟨some urlB, true⟩], 1⟩

/-- Parse oracle of the startup scenario: every token parses except the
malformed `http://[bad` (an unclosed IPv6 bracket makes Go's `url.Parse`
fail). -/
def wParse : GoStr → Option GoStr :=
  fun t => if t = ("http://[bad".toList) then none else some t

/-- Decode oracle of the JWT witnesses: three known tokens and nothing else. -/
def wDecode : GoStr → Option JwtClaimsModel :=
  fun s =>
    if s = ("good".toList) then some ⟨"k".toList, 10⟩
    else if s = ("bad".toList) then some ⟨"x".toList, 10⟩
    else if s = ("old".toList) then some ⟨"k".toList, -5⟩
    else none

/-- Verification oracle that always reports a non-sentinel error. -/
def wVerifyOther : GoStr → JwtVerifyOutcome := fun _ => JwtVerifyOutcome.errOther

/-- A protected gateway endpoint. -/
def epProtected : GEndpoint := ⟨"/p".toList, "/pp".toList, true⟩

/-- An unprotected gateway endpoint. -/
def epOpen : GEndpoint := ⟨"/u".toList, "/uu".toList, false⟩

theorem goStartsWith_append_self (p s : GoStr) : goStartsWith (p ++ s) p = true := by
  induction p with
  | nil =>
    cases s with
    | nil => rfl
    | cons x xs => rfl
  | cons c cs ih => simp [goStartsWith, ih]

theorem splitChar_ne_nil (c : Char) (l : GoStr) : splitChar c l ≠ [] := by
  induction l with
  | nil => simp [splitChar]
  | cons x xs ih =>
    by_cases hx : x = c
    · simp [splitChar, hx]
    · simp only [splitChar, if_neg hx]
      cases hsp : splitChar c xs with
      | nil => simp
      | cons y ys => simp

theorem splitChar_of_not_mem (c : Char) (l : GoStr) (h : c ∉ l) : splitChar c l = [l] := by
  induction l with
  | nil => rfl
  | cons x xs ih =>
    have hx : ¬ x = c := by
      intro hh
      exact h (by simp [hh])
    have hxs : c ∉ xs := by
      intro hh
      exact h (by simp [hh])
    simp [splitChar, if_neg hx, ih hxs]

theorem splitChar_append_cons (c : Char) (a b : GoStr) (h : c ∉ a) :
    splitChar c (a ++ c :: b) = a :: splitChar c b := by
  induction a with
  | nil => simp [splitChar]
  | cons x xs ih =>
    have hx : ¬ x = c := by
      intro hh
      exact h (by simp [hh])
    have hxs : c ∉ xs := by
      intro hh
      exact h (by simp [hh])
    simp [splitChar, if_neg hx, ih hxs]

theorem splitCommaSpace_ne_nil (l : GoStr) : splitCommaSpace l ≠ [] := by
  induction l with
  | nil => simp [splitCommaSpace]
  | cons x xs ih =>
    cases xs with
    | nil => simp [splitCommaSpace]
    | cons y rest =>
      by_cases hsep : x = ',' ∧ y = ' '
      · simp [splitCommaSpace, if_pos hsep]
      · simp only [splitCommaSpace, if_neg hsep]
        cases hsp : splitCommaSpace (y :: rest) with
        | nil => simp
        | cons z zs => simp

theorem splitCommaSpace_of_no_comma (l : GoStr) (h : ',' ∉ l) : splitCommaSpace l = [l] := by
  induction l with
  | nil => rfl
  | cons x xs ih =>
    have hx : ¬ (x = ',') := by
      intro hh
      exact h (by simp [hh])
    have hxs : ',' ∉ xs := by
      intro hh
      exact h (by simp [hh])
    cases xs with
    | nil => rfl
    | cons y rest =>
      have hsep : ¬ (x = ',' ∧ y = ' ') := by
        intro hh
        exact hx hh.1
      simp only [splitCommaSpace, if_neg hsep, ih hxs]

theorem splitCommaSpace_append (a b : GoStr) (h : ',' ∉ a) :
    splitCommaSpace (a ++ ',' :: ' ' :: b) = a :: splitCommaSpace b := by
  induction a with
  | nil => simp [splitCommaSpace]
  | cons x xs ih =>
    have hx : ¬ (x = ',') := by
      intro hh
      exact h (by simp [hh])
    have hxs : ',' ∉ xs := by
      intro hh
      exact h (by simp [hh])
    have ih' := ih hxs
    cases xs with
    | nil => simp [splitCommaSpace, hx]
    | cons x' xs' =>
      have hsep : ¬ (x = ',' ∧ x' = ' ') := by
        intro hh
        exact hx hh.1
      simp only [List.cons_append] at ih' ⊢
      simp only [splitCommaSpace, if_neg hsep, ih']

theorem replaceLoopback_loopback_head (rest : GoStr) :
    replaceLoopback ('[' :: ':' :: ':' :: '1' :: ']' :: rest) =
      ("localhost".toList) ++ replaceLoopback rest := rfl

theorem replaceLoopback_of_no_bracket (l : GoStr) (h : '[' ∉ l) : replaceLoopback l = l := by
  induction l with
  | nil => rfl
  | cons x xs ih =>
    have hx : x ≠ '[' := by
      intro hh
      exact h (by simp [hh])
    have hxs : '[' ∉ xs := by
      intro hh
      exact h (by simp [hh])
    rw [replaceLoopback.eq_def]
    split
    · next heq =>
      exact absurd rfl (by injection heq with h1 h2; exact h1 ▸ hx)
    · next heq =>
      injection heq with h1 h2
      subst h1
      subst h2
      rw [ih hxs]
    · next heq => exact absurd heq (List.cons_ne_nil x xs)

theorem goContains_append_self (pat r : GoStr) (h : pat ≠ []) :
    goContains (pat ++ r) pat = true := by
  cases pat with
  | nil => exact absurd rfl h
  | cons p ps =>
    have := goStartsWith_append_self (p :: ps) r
    simp only [List.cons_append] at this ⊢
    simp [goContains, this]

theorem goContains_eq_false (p : Char) (ps l : GoStr) (h : p ∉ l) :
    goContains l (p :: ps) = false := by
  induction l with
  | nil => rfl
  | cons x xs ih =>
    have hx : ¬ (x = p) := by
      intro hh
      exact h (by simp [hh])
    have hxs : p ∉ xs := by
      intro hh
      exact h (by simp [hh])
    simp [goContains, goStartsWith, hx, ih hxs]

theorem splitChar_space_bearer (s : GoStr) (h : ' ' ∉ s) :
    splitChar ' ' (bearerTag ++ s) = [("Bearer".toList), s] := by
  have h1 : bearerTag ++ s = ("Bearer".toList) ++ ' ' :: s := by
    rw [show bearerTag = ("Bearer".toList) ++ [' '] from rfl, List.append_assoc]
    rfl
  rw [h1, splitChar_append_cons ' ' _ s (by decide), splitChar_of_not_mem ' ' s h]

/-- C2: on a forwarding error where the retry counter read from the request
context is strictly below 3, the error handler sleeps for the backoff
duration computed from that retry count, derives a context with the counter
incremented by one, and re-forwards the same request through the same
backend index; the equality with the continuation at the unchanged pool
state and unchanged index shows that no peer is selected and nothing else
changes. -/
theorem lb_retry_below_cap_same_backend (st : PoolState) (i retry attempts : Nat)
    (rest : List Bool) (h : retry < 3) :
    lbServe st i retry attempts (false :: rest) =
      (LBEvent.forwardReq (backendUrlAt st i) :: LBEvent.sleepBackoff retry ::
        (lbServe st i (retry + 1) attempts rest).1,
       (lbServe st i (retry + 1) attempts rest).2) := by
  simp [lbServe, lbErrorHandler, if_pos h]

/-- C2 witness: the retry branch at a concrete pool, index and retry count. -/
theorem lb_retry_below_cap_same_backend_witness :
    lbServe poolAB 0 1 0 [false] =
      (LBEvent.forwardReq (backendUrlAt poolAB 0) :: LBEvent.sleepBackoff 1 ::
        (lbServe poolAB 0 2 0 []).1,
       (lbServe poolAB 0 2 0 []).2) :=
  lb_retry_below_cap_same_backend poolAB 0 1 0 [] (by decide)

/-- C10: a forwarding error handled with a context retry count below 3
leaves the server pool completely unchanged and produces the retry action,
not the reroute action — so no liveness flag is mutated and no attempt
counter is incremented. -/
theorem lb_error_handler_frame (st : PoolState) (u : Option GoStr) (retry attempts : Nat)
    (h : retry < 3) :
    (lbErrorHandler st u retry attempts).1 = st ∧
    (lbErrorHandler st u retry attempts).2 = HandlerAction.retrySame retry (retry + 1) := by
  simp [lbErrorHandler, if_pos h]

/-- C10 witness: the frame property at a concrete pool and retry count. -/
theorem lb_error_handler_frame_witness :
    (lbErrorHandler poolAB (some urlA) 0 0).1 = poolAB ∧
    (lbErrorHandler poolAB (some urlA) 0 0).2 = HandlerAction.retrySame 0 1 :=
  lb_error_handler_frame poolAB (some urlA) 0 0 (by decide)

/-- C1 counterexample: a request whose forwarding to backend A fails on
exactly three consecutive attempts (and then succeeds).  The three failures
produce exactly three backoff sleeps, but backend A is NOT marked dead, the
attempt counter is never incremented and the router's entry point is not
re-entered: the fourth forward still goes to A.  This refutes the claim that
three consecutive failures already trigger the mark-dead/reroute step. -/
theorem lb_three_failures_no_markdead :
    Lbalancer poolAB 0 0 [false, false, false, true] =
      ([LBEvent.forwardReq (some urlA), LBEvent.sleepBackoff 0,
        LBEvent.forwardReq (some urlA), LBEvent.sleepBackoff 1,
        LBEvent.forwardReq (some urlA), LBEvent.sleepBackoff 2,
        LBEvent.forwardReq (some urlA), LBEvent.respondOK (some urlA)],
       ⟨[⟨some urlA, true⟩, ⟨some urlB, true⟩], 2⟩) ∧
    LBEvent.markDead (some urlA) ∉ (Lbalancer poolAB 0 0 [false, false, false, true]).1 := by
  decide

/-- C1 amended: a request whose forwarding to backend A fails on four
consecutive attempts (the initial forward plus the three same-backend
retries) produces exactly 3 backoff sleeps, then the fourth failure marks
backend A's liveness false, increments the attempt counter in the derived
context, re-enters the router's top-level entry point, and the request is
rerouted to the other alive backend B and answered by B without any
client-visible error. -/
theorem lb_exhausted_backend_reroutes :
    Lbalancer poolAB 0 0 [false, false, false, false, true] =
      ([LBEvent.forwardReq (some urlA), LBEvent.sleepBackoff 0,
        LBEvent.forwardReq (some urlA), LBEvent.sleepBackoff 1,
        LBEvent.forwardReq (some urlA), LBEvent.sleepBackoff 2,
        LBEvent.forwardReq (some urlA), LBEvent.markDead (some urlA), LBEvent.reenterLB 1,
        LBEvent.forwardReq (some urlB), LBEvent.respondOK (some urlB)],
       ⟨[⟨some urlA, false⟩, ⟨some urlB, true⟩], 3⟩) := by
  decide

/-- C7: evaluating the startup parsing loop on a server list whose second
token fails `url.Parse`.  The parse error is logged, but the malformed
backend is NOT skipped: it is still appended to the pool (with a nil URL)
and even logged as configured, contradicting the specified skip behaviour. -/
theorem startlb_malformed_backend_still_added :
    startLBParseServers wParse ("http://good,http://[bad".toList) =
      ([⟨some ("http://good".toList), true⟩, ⟨none, true⟩],
       [StartupLog.configuredLog ("http://good".toList),
        StartupLog.parseErrorLog ("http://[bad".toList),
        StartupLog.configuredLog ("http://[bad".toList)]) := by
  decide

/-- C4: behaviour of the JWT check over the modelled library verification —
a header without the `Bearer ` marker fails with the bearer-format error; a
decodable token signed under a different secret fails with the
HMAC-verification error kind; a correctly signed token whose exp claim lies
before now fails with the expiration error kind; and a correctly signed,
unexpired token passes with nil. -/
theorem checkjwt_cases (key : GoStr) (now : Int) (decode : GoStr → Option JwtClaimsModel) :
    (∀ hdr, goStartsWith hdr bearerTag = false →
      checkJWTSecretKeyFromRequest (jwtVerifyModel key now decode) hdr =
        some ProxyError.bearerTokenFormat) ∧
    (∀ s claims, ' ' ∉ s → decode s = some claims → claims.sigKey ≠ key →
      checkJWTSecretKeyFromRequest (jwtVerifyModel key now decode) (bearerTag ++ s) =
        some ProxyError.tokenHMACValidation) ∧
    (∀ s claims, ' ' ∉ s → decode s = some claims → claims.sigKey = key → claims.exp < now →
      checkJWTSecretKeyFromRequest (jwtVerifyModel key now decode) (bearerTag ++ s) =
        some ProxyError.tokenExpValidation) ∧
    (∀ s claims, ' ' ∉ s → decode s = some claims → claims.sigKey = key → now ≤ claims.exp →
      checkJWTSecretKeyFromRequest (jwtVerifyModel key now decode) (bearerTag ++ s) = none) := by
  refine ⟨?_, ?_, ?_, ?_⟩
  · intro hdr hpre
    simp [checkJWTSecretKeyFromRequest, hpre]
  · intro s claims hs hdec hne
    simp [checkJWTSecretKeyFromRequest, goStartsWith_append_self,
      splitChar_space_bearer s hs, jwtVerifyModel, hdec, hne]
  · intro s claims hs hdec heq hlt
    simp [checkJWTSecretKeyFromRequest, goStartsWith_append_self,
      splitChar_space_bearer s hs, jwtVerifyModel, hdec, heq, hlt]
  · intro s claims hs hdec heq hge
    have hnlt : ¬ (claims.exp < now) := not_lt.mpr hge
    simp [checkJWTSecretKeyFromRequest, goStartsWith_append_self,
      splitChar_space_bearer s hs, jwtVerifyModel, hdec, heq, hnlt]

/-- C4 witness: the four cases at a concrete key, time and decode oracle. -/
theorem checkjwt_cases_witness :
    checkJWTSecretKeyFromRequest (jwtVerifyModel ("k".toList) 0 wDecode) ("Token x".toList) =
      some ProxyError.bearerTokenFormat ∧
    checkJWTSecretKeyFromRequest (jwtVerifyModel ("k".toList) 0 wDecode)
      (bearerTag ++ ("bad".toList)) = some ProxyError.tokenHMACValidation ∧
    checkJWTSecretKeyFromRequest (jwtVerifyModel ("k".toList) 0 wDecode)
      (bearerTag ++ ("old".toList)) = some ProxyError.tokenExpValidation ∧
    checkJWTSecretKeyFromRequest (jwtVerifyModel ("k".toList) 0 wDecode)
      (bearerTag ++ ("good".toList)) = none :=
  ⟨(checkjwt_cases ("k".toList) 0 wDecode).1 ("Token x".toList) (by decide),
   (checkjwt_cases ("k".toList) 0 wDecode).2.1 ("bad".toList) ⟨"x".toList, 10⟩
     (by decide) (by decide) (by decide),
   (checkjwt_cases ("k".toList) 0 wDecode).2.2.1 ("old".toList) ⟨"k".toList, -5⟩
     (by decide) (by decide) (by decide) (by decide),
   (checkjwt_cases ("k".toList) 0 wDecode).2.2.2 ("good".toList) ⟨"k".toList, 10⟩
     (by decide) (by decide) (by decide) (by decide)⟩

/-- C9: when verification of a bearer token ends in any error other than the
expiration or HMAC sentinels (for example a structurally malformed token
that cannot be decoded), the JWT check returns nil and the request passes
the authorization gate. -/
theorem checkjwt_other_error_passes (verify : GoStr → JwtVerifyOutcome) (hdr : GoStr)
    (hpre : goStartsWith hdr bearerTag = true)
    (hother : verify ((splitChar ' ' hdr).getD 1 []) = JwtVerifyOutcome.errOther) :
    checkJWTSecretKeyFromRequest verify hdr = none := by
  simp only [checkJWTSecretKeyFromRequest, hpre, if_true]
  rw [hother]

/-- C9 witness: a well-formed bearer header whose token draws a non-sentinel
verification error passes the check. -/
theorem checkjwt_other_error_passes_witness :
    checkJWTSecretKeyFromRequest wVerifyOther ("Bearer zz".toList) = none :=
  checkjwt_other_error_passes wVerifyOther ("Bearer zz".toList) (by decide) (by decide)

/-- C3 counterexample: the secret-store lookup fails (the error is only
logged) and the returned value is empty; an empty `X-API-KEY` header then
compares equal and the check PASSES, refuting the claim that any lookup
failure fails the request with the invalid-key error (and that an empty
header always fails). -/
theorem apikey_lookup_failure_passes :
    checkAPIKEYSecretKeyFromRequest [] (some ()) [] = none := by
  decide

/-- C3 amended: the API-key check passes exactly when the header equals the
value returned by the secret-store lookup, and any mismatch yields the
invalid-key error; the lookup error plays no role in the outcome. -/
theorem apikey_compare_only (v : GoStr) (e : Option Unit) (hdr : GoStr) :
    (checkAPIKEYSecretKeyFromRequest v e hdr = none ↔ v = hdr) ∧
    (v ≠ hdr → checkAPIKEYSecretKeyFromRequest v e hdr = some ProxyError.invalidAPIKey) := by
  by_cases hv : v = hdr <;> simp [checkAPIKEYSecretKeyFromRequest, hv]

/-- C3 amended witness: both directions at concrete store values and
headers, with the lookup reporting an error. -/
theorem apikey_compare_only_witness :
    (checkAPIKEYSecretKeyFromRequest ("k".toList) (some ()) ("w".toList) = none ↔
      ("k".toList : GoStr) = ("w".toList)) ∧
    checkAPIKEYSecretKeyFromRequest ("k".toList) (some ()) ("w".toList) =
      some ProxyError.invalidAPIKey :=
  ⟨(apikey_compare_only ("k".toList) (some ()) ("w".toList)).1,
   (apikey_compare_only ("k".toList) (some ()) ("w".toList)).2 (by decide)⟩

/-- C5 counterexample: a gateway wired with a single unprotected endpoint
forwards the response untouched — no `ModifyResponse` hook is ever installed
on its handle, so the forwarded response does NOT carry the `X-Proxy`
header, refuting the claim that every gateway-forwarded response (protected
and unprotected endpoints alike) carries it. -/
theorem gateway_unprotected_lacks_header :
    getHeader ((serveGatewayRequest [epOpen] apikeyTag wVerifyOther ("secret".toList) none
        (proxyGatewayInit [epOpen]) 0 ⟨[], []⟩ ⟨[]⟩).1.1) xProxyName = none := by
  decide

/-- C5 amended: every response processed by the installed response hook
carries the constant `X-Proxy: Ngonx` header, set before the check's error
(if any) is propagated; and in a gateway wired with a single protected
endpoint the forwarded response always carries the header and propagates
exactly the API-key check's outcome, whether the check passed or failed. -/
theorem gateway_hooked_response_has_header :
    (∀ (e : Option ProxyError) (resp : HTTPResponse),
      getHeader (modifyResponse e resp).1 xProxyName = some ngonxValue ∧
      (modifyResponse e resp).2 = e) ∧
    (∀ (ep : GEndpoint), ep.pathProtected = true →
      ∀ (verify : GoStr → JwtVerifyOutcome) (gv : GoStr) (ge : Option Unit)
        (req : GRequest) (resp : HTTPResponse),
      getHeader ((serveGatewayRequest [ep] apikeyTag verify gv ge (proxyGatewayInit [ep])
          0 req resp).1.1) xProxyName = some ngonxValue ∧
      (serveGatewayRequest [ep] apikeyTag verify gv ge (proxyGatewayInit [ep])
          0 req resp).1.2 =
        checkAPIKEYSecretKeyFromRequest gv ge req.xApiKeyHeader) := by
  have hja : apikeyTag ≠ jwtTag := by decide
  constructor
  · intro e resp
    constructor
    · simp [modifyResponse, setHeader, getHeader]
    · rfl
  · intro ep hp verify gv ge req resp
    simp [serveGatewayRequest, gatewayCheckResult, proxyGatewayInit, hp, hja,
      modifyResponse, setHeader, getHeader]

/-- C5 amended witness: the single-protected-endpoint gateway at concrete
values (a failing API-key check), applying the amended theorem. -/
theorem gateway_hooked_response_has_header_witness :
    getHeader ((serveGatewayRequest [epProtected] apikeyTag wVerifyOther ("secret".toList)
        none (proxyGatewayInit [epProtected]) 0 ⟨[], ("wrong".toList)⟩ ⟨[]⟩).1.1) xProxyName =
      some ngonxValue ∧
    (serveGatewayRequest [epProtected] apikeyTag wVerifyOther ("secret".toList)
        none (proxyGatewayInit [epProtected]) 0 ⟨[], ("wrong".toList)⟩ ⟨[]⟩).1.2 =
      checkAPIKEYSecretKeyFromRequest ("secret".toList) none ("wrong".toList) :=
  gateway_hooked_response_has_header.2 epProtected (by decide) wVerifyOther
    ("secret".toList) none ⟨[], ("wrong".toList)⟩ ⟨[]⟩

/-- C6: evaluating the gateway wiring at the failing input — two endpoints,
the first protected with `apikey`, the second unprotected; a request to the
protected endpoint with a wrong key.  The Director assigns the failed
check's hook through the package-global `proxy` variable, i.e. onto the
LAST created handle (the unprotected endpoint's, index 1), so the protected
endpoint's own response is forwarded unmodified — no `X-Proxy` header and no
rejection — while the other endpoint's handle now carries the stale error. -/
theorem gateway_check_error_lands_on_last_handle :
    serveGatewayRequest [epProtected, epOpen] apikeyTag wVerifyOther ("secret".toList) none
        (proxyGatewayInit [epProtected, epOpen]) 0 ⟨[], ("wrong".toList)⟩ ⟨[]⟩ =
      ((⟨[]⟩, none), ⟨[none, some (some ProxyError.invalidAPIKey)]⟩) := by
  decide

/-- C8 counterexample: an `X-Forwarded-For` header that is a comma-separated
list WITHOUT a space after the comma.  The code splits only on the
two-character separator `", "`, so the whole header value — not its first
entry — is used, refuting the claim for comma-separated lists in general. -/
theorem extractip_comma_no_space_not_split :
    extractIpAddr ("9.9.9.9:80".toList) ("1.2.3.4,5.6.7.8".toList) =
      ("1.2.3.4,5.6.7.8".toList) ∧
    ("1.2.3.4,5.6.7.8".toList : GoStr) ≠ ("1.2.3.4".toList) := by
  decide

/-- C8 amended: the extracted client IP is the first entry of the
`X-Forwarded-For` header when that header is a comma-SPACE (`", "`)
separated list (the whole header value when it contains no such separator),
and otherwise the raw remote address; in both cases everything from the
first `:` on is stripped, and the IPv6 loopback notation `[::1]` is rewritten
to `localhost` before the port is stripped. -/
theorem extractip_behaviour :
    (∀ ip port : GoStr, ':' ∉ ip → goContains (ip ++ ':' :: port) loopbackPat = false →
      extractIpAddr (ip ++ ':' :: port) [] = ip) ∧
    (∀ port : GoStr,
      extractIpAddr (("[::1]:".toList) ++ port) [] = ("localhost".toList)) ∧
    (∀ remote fwd : GoStr, fwd ≠ [] → ',' ∉ fwd → ':' ∉ fwd →
      goContains fwd loopbackPat = false → extractIpAddr remote fwd = fwd) ∧
    (∀ remote entry rest : GoStr, ',' ∉ entry → ':' ∉ entry →
      goContains entry loopbackPat = false →
      extractIpAddr remote (entry ++ ',' :: ' ' :: rest) = entry) := by
  refine ⟨?_, ?_, ?_, ?_⟩
  · intro ip port hc hl
    simp [extractIpAddr, hl, splitChar_append_cons ':' ip port hc]
  · intro port
    have h2 : replaceLoopback ('[' :: ':' :: ':' :: '1' :: ']' :: ':' :: port) =
        ("localhost".toList) ++ ':' :: replaceLoopback port := by
      rw [replaceLoopback_loopback_head]
      rfl
    have h3 : goContains ('[' :: ':' :: ':' :: '1' :: ']' :: ':' :: port) loopbackPat = true := by
      have := goContains_append_self loopbackPat (':' :: port) (by decide)
      simpa [loopbackPat] using this
    have h4 : splitChar ':'
        ('l' :: 'o' :: 'c' :: 'a' :: 'l' :: 'h' :: 'o' :: 's' :: 't' :: ':' :: replaceLoopback port) =
        ("localhost".toList) :: splitChar ':' (replaceLoopback port) :=
      splitChar_append_cons ':' ("localhost".toList) (replaceLoopback port) (by decide)
    simp [extractIpAddr, h2, h3, h4]
  · intro remote fwd hne hc hcol hl
    simp [extractIpAddr, hne, splitCommaSpace_of_no_comma fwd hc, hl,
      splitChar_of_not_mem ':' fwd hcol]
  · intro remote entry rest hc hcol hl
    have hne : entry ++ ',' :: ' ' :: rest ≠ [] := by simp
    have hlen : 0 < (splitCommaSpace rest).length :=
      List.length_pos.mpr (splitCommaSpace_ne_nil rest)
    simp [extractIpAddr, hne, splitCommaSpace_append entry rest hc, hlen, hl,
      splitChar_of_not_mem ':' entry hcol]

/-- C8 amended witness: all four shapes at concrete addresses and headers. -/
theorem extractip_behaviour_witness :
    extractIpAddr (("10.0.0.7".toList) ++ ':' :: ("443".toList)) [] = ("10.0.0.7".toList) ∧
    extractIpAddr (("[::1]:".toList) ++ ("8080".toList)) [] = ("localhost".toList) ∧
    extractIpAddr ("rem".toList) ("1.2.3.4".toList) = ("1.2.3.4".toList) ∧
    extractIpAddr ("rem".toList) (("1.2.3.4".toList) ++ ',' :: ' ' :: ("7.7.7.7".toList)) =
      ("1.2.3.4".toList) :=
  ⟨extractip_behaviour.1 ("10.0.0.7".toList) ("443".toList) (by decide) (by decide),
   extractip_behaviour.2.1 ("8080".toList),
   extractip_behaviour.2.2.1 ("rem".toList) ("1.2.3.4".toList) (by decide) (by decide)
     (by decide) (by decide),
   extractip_behaviour.2.2.2 ("rem".toList) ("1.2.3.4".toList) ("7.7.7.7".toList)
     (by decide) (by decide) (by decide)⟩
